import Mathlib

/-!
Verification development for the questionnaire-schema validator
(`app/validation/answer_validator.py` and `app/validation/questionnaire_schema.py`).

The Python code is shallowly embedded: dictionaries become structures with
optional fields, fallible operations (KeyError, TypeError, ValueError,
jsonpath parse errors, list-index errors) become `Except String`, Python
ints and floats are modelled as exact rationals (`ℚ`), and Python `None`
used as a data value becomes `Option.none`.  Python's `datetime.utcnow()`
is threaded through as an explicit `now : Date` parameter.
-/

/-! ### Calendar dates (models Python `datetime` restricted to dates,
`dateutil.relativedelta` addition, and `strptime` for the two formats the
source uses). -/

structure Date where
  year : ℤ
  month : ℤ
  day : ℤ
deriving DecidableEq, Repr

/-- Strict `datetime` comparison (times are always midnight here). -/
def dateLt (a b : Date) : Bool :=
  decide (a.year < b.year ∨ (a.year = b.year ∧
    (a.month < b.month ∨ (a.month = b.month ∧ a.day < b.day))))

def isLeapYear (y : ℤ) : Bool :=
  y % 4 == 0 && (y % 100 != 0 || y % 400 == 0)

def daysInMonth (y m : ℤ) : ℤ :=
  if m = 2 then (if isLeapYear y then 29 else 28)
  else if m = 4 ∨ m = 6 ∨ m = 9 ∨ m = 11 then 30
  else 31

/-- Days since 1970-01-01 (proleptic Gregorian, Hinnant's civil-date algorithm). -/
def daysFromCivil (d : Date) : ℤ :=
  let y := if d.month ≤ 2 then d.year - 1 else d.year
  let era := y.fdiv 400
  let yoe := y - era * 400
  let mp := if d.month > 2 then d.month - 3 else d.month + 9
  let doy := (153 * mp + 2).fdiv 5 + d.day - 1
  let doe := yoe * 365 + yoe.fdiv 4 - yoe.fdiv 100 + doy
  era * 146097 + doe - 719468

/-- Inverse of `daysFromCivil`. -/
def civilFromDays (z0 : ℤ) : Date :=
  let z := z0 + 719468
  let era := z.fdiv 146097
  let doe := z - era * 146097
  let yoe := (doe - doe.fdiv 1460 + doe.fdiv 36524 - doe.fdiv 146096).fdiv 365
  let y := yoe + era * 400
  let doy := doe - (365 * yoe + yoe.fdiv 4 - yoe.fdiv 100)
  let mp := (5 * doy + 2).fdiv 153
  let d := doy - (153 * mp + 2).fdiv 5 + 1
  let m := if mp < 10 then mp + 3 else mp - 9
  ⟨if m ≤ 2 then y + 1 else y, m, d⟩

def addDays (d : Date) (n : ℤ) : Date :=
  civilFromDays (daysFromCivil d + n)

/-- The `offset_by` object: a mapping with optional `years`/`months`/`days`. -/
structure OffsetBy where
  years : Option ℤ
  months : Option ℤ
  days : Option ℤ
deriving DecidableEq, Repr

def OffsetBy.empty : OffsetBy := ⟨none, none, none⟩

/-- `dateutil.relativedelta(years=…, months=…, days=…)` added to a date:
years and months are applied first (with the day clamped to the target
month's length), then the day offset is applied as a timedelta. -/
def addRelativeDelta (d : Date) (off : OffsetBy) : Date :=
  let total := d.year * 12 + (d.month - 1) + (off.years.getD 0) * 12 + off.months.getD 0
  let y := total.fdiv 12
  let m := total.emod 12 + 1
  let day := min d.day (daysInMonth y m)
  addDays ⟨y, m, day⟩ (off.days.getD 0)

def digitsToNat (cs : List Char) : ℕ :=
  cs.foldl (fun acc c => acc * 10 + (c.toNat - 48)) 0

/-- Python `s.split(sep)` for a one-character separator (the only separators
the source splits on are `"-"` and `"."`). -/
def pySplitChar (sep : Char) : List Char → List (List Char)
  | [] => [[]]
  | c :: rest =>
    if c = sep then [] :: pySplitChar sep rest
    else
      match pySplitChar sep rest with
      | [] => [[c]]
      | g :: gs => (c :: g) :: gs

def pySplit (s : String) (sep : Char) : List String :=
  (pySplitChar sep s.toList).map String.mk

/-- Python `sep.join(parts)`. -/
def pyJoin (sep : String) : List String → String
  | [] => ""
  | [x] => x
  | x :: xs => x ++ sep ++ pyJoin sep xs

/-- Python `s[:-n]` for `0 < n ≤ len(s)` (drop the last `n` characters). -/
def pyDropRight (s : String) (n : ℕ) : String :=
  String.mk (s.toList.take (s.toList.length - n))

def allDigits (s : String) : Bool :=
  s.length > 0 && s.toList.all Char.isDigit

/-- `strptime(value, "%Y-%m")`: year of 1–4 digits, month of 1–2 digits in
1..12; the day defaults to 1.  Trailing unconverted data is an error. -/
def strptimeYm (s : String) : Except String Date :=
  match pySplit s '-' with
  | [ys, ms] =>
    if allDigits ys && ys.length ≤ 4 && allDigits ms && ms.length ≤ 2 then
      let m : ℤ := digitsToNat ms.toList
      if 1 ≤ m ∧ m ≤ 12 then .ok ⟨digitsToNat ys.toList, m, 1⟩
      else .error ("ValueError: time data does not match format %Y-%m")
    else .error ("ValueError: time data does not match format %Y-%m")
  | _ => .error ("ValueError: time data does not match format %Y-%m")

/-- `strptime(value, "%Y-%m-%d")`, with the day validated against the month. -/
def strptimeYmd (s : String) : Except String Date :=
  match pySplit s '-' with
  | [ys, ms, ds] =>
    if allDigits ys && ys.length ≤ 4 && allDigits ms && ms.length ≤ 2
        && allDigits ds && ds.length ≤ 2 then
      let y : ℤ := digitsToNat ys.toList
      let m : ℤ := digitsToNat ms.toList
      let d : ℤ := digitsToNat ds.toList
      if 1 ≤ m ∧ m ≤ 12 ∧ 1 ≤ d ∧ d ≤ daysInMonth y m then .ok ⟨y, m, d⟩
      else .error ("ValueError: time data does not match format %Y-%m-%d")
    else .error ("ValueError: time data does not match format %Y-%m-%d")
  | _ => .error ("ValueError: time data does not match format %Y-%m-%d")

/-- `re.match(r"\d\x7b4\x7d-\d\x7b2\x7d-\d\x7b2\x7d", value)`: a prefix match. -/
def matchesYmdPattern : List Char → Bool
  | a :: b :: c :: d :: s1 :: e :: f :: s2 :: g :: h :: _ =>
    a.isDigit && b.isDigit && c.isDigit && d.isDigit && s1 == '-'
      && e.isDigit && f.isDigit && s2 == '-' && g.isDigit && h.isDigit
  | _ => false

def padLeftZeros (s : String) (n : ℕ) : String :=
  String.mk (List.replicate (n - s.length) '0') ++ s

/-- `datetime.strftime("%Y-%m-%d")` for our date model. -/
def formatYmd (d : Date) : String :=
  padLeftZeros (toString d.year) 4 ++ ("-") ++ padLeftZeros (toString d.month) 2
    ++ ("-") ++ padLeftZeros (toString d.day) 2

/-! ### Schema values

A `SchemaValue` is the value found at a `minimum`/`maximum`'s `value` key,
at an option's `value` key, or at a routing `when` clause's `value` key:
a JSON number (Python distinguishes `int` from `float`, which matters for
`isinstance(…, int)` checks), a string, or a mapping.  The only mappings
that occur in these positions carry optional `source`/`identifier` keys. -/

inductive SchemaValue where
  | int (n : ℤ)
  | float (q : ℚ)
  | str (s : String)
  | dict (source : Option String) (identifier : Option String)
deriving DecidableEq, Repr

/-- Python `==` between schema values (`1 == 1.0` is true across int/float). -/
def pyEq : SchemaValue → SchemaValue → Bool
  | .int a, .int b => a == b
  | .int a, .float b => (a : ℚ) == b
  | .float a, .int b => a == (b : ℚ)
  | .float a, .float b => a == b
  | .str a, .str b => a == b
  | .dict s1 i1, .dict s2 i2 => s1 == s2 && i1 == i2
  | _, _ => false

/-- Python `str(...)` of a schema value as used by message formatting
(floats are modelled as exact rationals, so their rendering is approximate;
no claim depends on a float's rendered text). -/
def pyStr : SchemaValue → String
  | .int n => toString n
  | .float q => toString q
  | .str s => s
  | .dict _ _ => "\x7b...\x7d"

def squo : String := (Char.ofNat 39).toString

/-- Python `repr(...)`, used when formatting a list of option values. -/
def pyRepr : SchemaValue → String
  | .str s => squo ++ s ++ squo
  | v => pyStr v

def pyReprList (vs : List SchemaValue) : String :=
  ("[") ++ pyJoin (", ") (vs.map pyRepr) ++ ("]")

def SchemaValue.asQ : SchemaValue → Option ℚ
  | .int n => some (n : ℚ)
  | .float q => some q
  | _ => none

/-- Python `x + q` where `q` is a float: defined for numbers, a `TypeError`
otherwise (in particular for `None`, handled at call sites). -/
def svAddQ (v : SchemaValue) (q : ℚ) : Except String SchemaValue :=
  match v with
  | .int n => .ok (.float ((n : ℚ) + q))
  | .float x => .ok (.float (x + q))
  | _ => .error ("TypeError: unsupported operand type for +")

/-! ### The answer data model (the `schema_element` dict an
`AnswerValidator` is constructed with). -/

/-- A `minimum` / `maximum` object: optional `value` and `offset_by` keys. -/
structure MinMaxSpec where
  value : Option SchemaValue
  offset_by : Option OffsetBy
deriving DecidableEq, Repr

/-- An option's `label`: either a plain string or a structured (placeholder /
plural) mapping with an optional `text` key and possibly a `text_plural` key. -/
inductive OptionLabel where
  | str (s : String)
  | obj (text : Option String) (text_plural : Bool)
deriving DecidableEq, Repr

/-- `option["action"]["params"]`: optional `list_name` / `block_id` keys.
`option.get("action", \x7b\x7d).get("params")` yields `none` when there is no
action or no params key (an empty params mapping, also falsy, is modelled
as absent). -/
structure ActionParams where
  list_name : Option String
  block_id : Option String
deriving DecidableEq, Repr

structure AnswerOption where
  label : OptionLabel
  value : SchemaValue
  action_params : Option ActionParams
deriving DecidableEq, Repr

structure Answer where
  id : String
  type : String
  mandatory : Option Bool
  options : Option (List AnswerOption)
  minimum : Option MinMaxSpec
  maximum : Option MinMaxSpec
  decimal_places : Option ℤ
  default : Option SchemaValue
  /-- whether the `calculated` key is present -/
  calculated : Bool
  /-- truthiness of `answer.get("exclusive", False)` -/
  exclusive : Bool
  suggestions_url : Option String
deriving DecidableEq, Repr

/-- A routing `when` clause entry: optional `id` and `value` keys. -/
structure RoutingWhen where
  id : Option String
  value : Option SchemaValue
deriving DecidableEq, Repr

/-- A routing rule's `goto`: we model the `when` key (the only key these
checks inspect besides presence). -/
structure RoutingGoto where
  when : Option (List RoutingWhen)
deriving DecidableEq, Repr

structure RoutingRule where
  goto : Option RoutingGoto
deriving DecidableEq, Repr

/-- The owning block as seen by `AnswerValidator` (only `routing_rules` is
read).  A supplied block is a nonempty mapping, hence truthy. -/
structure Block where
  routing_rules : Option (List RoutingRule)
deriving DecidableEq, Repr

/-! ### Error records: `add_error` builds `{"message": …, "id": …, **context}`. -/

inductive CtxVal where
  | int (n : ℤ)
  | str (s : String)
deriving DecidableEq, Repr

structure ErrorRec where
  message : String
  id : String
  context : List (String × CtxVal)
deriving DecidableEq, Repr

def mkError (message : String) (id : String) (context : List (String × CtxVal)) : ErrorRec :=
  ⟨message, id, context⟩

namespace AnswerValidator

def MAX_NUMBER : ℤ := 9999999999
def MIN_NUMBER : ℤ := -999999999
def MAX_DECIMAL_PLACES : ℤ := 6

def DECIMAL_PLACES_UNDEFINED : String :=
  squo ++ "decimal_places" ++ squo ++ " must be defined and set to 2"
def DECIMAL_PLACES_TOO_LONG : String := "Number of decimal places is greater than system limit"
def INVALID_OFFSET_DATE : String := "The minimum offset date is greater than the maximum offset date"
def INVALID_SUGGESTION_URL : String := "Suggestions url is invalid"
def LIST_NAME_MISSING : String := "List name defined in action params does not exist"
def BLOCK_ID_MISSING : String := "Block id defined in action params does not exist"
def DEFAULT_ON_MANDATORY : String := "Default is being used with a mandatory answer"
def MINIMUM_LESS_THAN_LIMIT : String := "Minimum value is less than system limit"
def MAXIMUM_GREATER_THAN_LIMIT : String := "Maximum value is greater than system limit"

/-- `self.options` = `self.answer.get("options", [])`. -/
def optionsOf (a : Answer) : List AnswerOption :=
  a.options.getD []

/-! ### `get_numeric_range_values` and its helpers -/

/-- A row of the per-answer numeric range table. -/
structure RangeEntry where
  min : Option SchemaValue
  max : Option SchemaValue
  decimal_places : ℤ
  min_referred : Option String
  max_referred : Option String
  default : Option SchemaValue
deriving DecidableEq, Repr

/-- The range table `answer_ranges`: answer id → entry. -/
def RangeTable := List (String × RangeEntry)

def lookupRange (r : RangeTable) (id : String) : Option RangeEntry :=
  List.lookup id r

/-- `self.answer.get("minimum", \x7b\x7d).get("value", \x7b\x7d)`: the missing-key
default is an empty dict, modelled as `.dict none none`. -/
def effectiveValue (mm : Option MinMaxSpec) : SchemaValue :=
  match mm with
  | none => .dict none none
  | some m => m.value.getD (.dict none none)

/-- `AnswerValidator._get_numeric_value`. -/
def get_numeric_value (defined_value : SchemaValue) (system_default : SchemaValue)
    (answer_ranges : RangeTable) : Except String (Option SchemaValue) :=
  match defined_value with
  | .dict source identifier =>
    if source = some ("answers") then
      match identifier with
      | none => .error ("KeyError: identifier")
      | some ident =>
        match lookupRange answer_ranges ident with
        | none => .ok none
        | some _ => .ok (some system_default)
    else .ok (some system_default)
  | lit => .ok (some lit)

/-- `AnswerValidator._get_answer_minimum`.  With `exclusive` set, Python
computes `minimum_value + (1 / 10 ** decimal_places)`, which raises a
`TypeError` when the resolved value is `None` or not a number. -/
def get_answer_minimum (defined_minimum : SchemaValue) (decimal_places : ℤ)
    (exclusive : Bool) (answer_ranges : RangeTable) : Except String (Option SchemaValue) := do
  let minimum_value ← get_numeric_value defined_minimum (.int 0) answer_ranges
  if exclusive then
    match minimum_value with
    | none => .error ("TypeError: unsupported operand type for +")
    | some v => (svAddQ v (1 / (10 : ℚ) ^ decimal_places)).map some
  else .ok minimum_value

/-- `AnswerValidator._get_answer_maximum`. -/
def get_answer_maximum (defined_maximum : SchemaValue) (decimal_places : ℤ)
    (exclusive : Bool) (answer_ranges : RangeTable) : Except String (Option SchemaValue) := do
  let maximum_value ← get_numeric_value defined_maximum (.int MAX_NUMBER) answer_ranges
  if exclusive then
    match maximum_value with
    | none => .error ("TypeError: unsupported operand type for -")
    | some v => (svAddQ v (-(1 / (10 : ℚ) ^ decimal_places))).map some
  else .ok maximum_value

/-- `AnswerValidator.get_numeric_range_values`. -/
def get_numeric_range_values (a : Answer) (answer_ranges : RangeTable) :
    Except String RangeEntry := do
  let min_value := effectiveValue a.minimum
  let max_value := effectiveValue a.maximum
  let min_referred := match min_value with
    | .dict _ ident => ident
    | _ => none
  let max_referred := match max_value with
    | .dict _ ident => ident
    | _ => none
  let exclusive := a.exclusive
  let decimal_places := a.decimal_places.getD 0
  let minv ← get_answer_minimum min_value decimal_places exclusive answer_ranges
  let maxv ← get_answer_maximum max_value decimal_places exclusive answer_ranges
  .ok ⟨minv, maxv, decimal_places, min_referred, max_referred, a.default⟩

end AnswerValidator

/-! ### Python string primitives (`str.find`, slicing, `in`) -/

/-- First index at which `pat` occurs in `s` (as lists of characters). -/
def listFindIdx (pat : List Char) : List Char → Option ℕ
  | [] => if pat.isEmpty then some 0 else none
  | c :: rest =>
    if pat.isPrefixOf (c :: rest) then some 0
    else (listFindIdx pat rest).map (· + 1)

/-- Python `s.find(pat)`: first index, or `-1` when absent. -/
def pyFind (s pat : String) : ℤ :=
  match listFindIdx pat.toList s.toList with
  | some n => n
  | none => -1

/-- Python `pat in s` (substring containment). -/
def pyIn (pat s : String) : Bool :=
  (listFindIdx pat.toList s.toList).isSome

/-- Python `s[a:b]` with int indices (negative indices count from the end,
out-of-range indices are clamped). -/
def pySlice (s : String) (a b : ℤ) : String :=
  let n : ℤ := s.length
  let norm : ℤ → ℤ := fun i => if i < 0 then max (n + i) 0 else min i n
  String.mk (((s.toList.drop (norm a).toNat).take ((norm b) - (norm a)).toNat))

/-- Python `int(s)` restricted to the unsigned digit strings that occur here
(single-character slices); anything else is a `ValueError`. -/
def pyIntOfString (s : String) : Except String ℕ :=
  if allDigits s then .ok (digitsToNat s.toList)
  else .error ("ValueError: invalid literal for int")

namespace AnswerValidator

/-! ### The flat per-answer checks and `validate` -/

/-- Membership of a label in the accumulating `labels` set (labels reaching
it are plain strings; structured labels are skipped before the check). -/
def labelEq : OptionLabel → OptionLabel → Bool
  | .str a, .str b => a == b
  | .obj t1 p1, .obj t2 p2 => t1 == t2 && p1 == p2
  | _, _ => false

/-- `AnswerValidator._validate_duplicate_options`: returns its local error
list (the caller `validate` discards this return value).  Options whose
label is a mapping are skipped entirely (placeholder labels). -/
def validate_duplicate_options (a : Answer) : List String :=
  let step := fun (st : List String × List OptionLabel × List SchemaValue) (o : AnswerOption) =>
    let (errors, labels, values) := st
    match o.label with
    | .obj _ _ => (errors, labels, values)
    | lbl =>
      let errors := if labels.any (labelEq lbl) then
          errors ++ ["Duplicate label found - " ++ (match lbl with | .str s => s | _ => "")]
        else errors
      let errors := if values.any (pyEq o.value) then
          errors ++ ["Duplicate value found - " ++ pyStr o.value]
        else errors
      (errors, labels ++ [lbl], values ++ [o.value])
  ((optionsOf a).foldl step ([], [], [])).1

/-- `AnswerValidator.are_decimal_places_valid`. -/
def are_decimal_places_valid (a : Answer) : Bool :=
  if a.calculated then a.decimal_places == some 2 else true

/-- `AnswerValidator.validate_labels_and_values_match`: returns its local
error list (discarded by `validate`).  `"text_plural" in option["label"]`
is a substring test for string labels and a key test for mappings; for a
mapping without the `text` key, `label["text"]` raises `KeyError`. -/
def validate_labels_and_values_match (a : Answer) : Except String (List String) :=
  (optionsOf a).foldlM (fun errors o => do
    let skip : Bool := match o.label with
      | .str s => pyIn ("text_plural") s
      | .obj _ tp => tp
    if skip then .ok errors
    else do
      let label ← match o.label with
        | .str s => Except.ok s
        | .obj (some t) _ => Except.ok t
        | .obj none _ => Except.error ("KeyError: text")
      if ¬ pyEq (.str label) o.value then
        .ok (errors ++ ["Found mismatching answer value for label: " ++ label
          ++ " in answer id: " ++ a.id])
      else .ok errors) []

/-- The `list_name` half of one option's action check:
`if list_name and list_name not in self.list_names: add_error(...)`.
`list_name not in self.list_names` raises a `TypeError` when the validator
was constructed with `list_names=None`. -/
def list_name_errors (aid : String) (list_names : Option (List String))
    (params : ActionParams) : Except String (List ErrorRec) :=
  match params.list_name with
  | some ln =>
    if ln ≠ "" then
      match list_names with
      | none => .error ("TypeError: argument of type NoneType is not iterable")
      | some names => .ok (if ln ∉ names then
          [mkError LIST_NAME_MISSING aid [(("list_name"), .str ln)]] else [])
    else .ok []
  | none => .ok []

/-- The `block_id` half of one option's action check. -/
def block_id_errors (aid : String) (block_ids : Option (List String))
    (params : ActionParams) : Except String (List ErrorRec) :=
  match params.block_id with
  | some bid =>
    if bid ≠ "" then
      match block_ids with
      | none => .error ("TypeError: argument of type NoneType is not iterable")
      | some ids => .ok (if bid ∉ ids then
          [mkError BLOCK_ID_MISSING aid [(("block_id"), .str bid)]] else [])
    else .ok []
  | none => .ok []

/-- One option of `AnswerValidator._validate_answer_actions`: the errors it
adds (in list-name-then-block-id order). -/
def validate_answer_actions_option (aid : String) (list_names block_ids : Option (List String))
    (o : AnswerOption) : Except String (List ErrorRec) :=
  match o.action_params with
  | none => .ok []
  | some params => do
    let e1 ← list_name_errors aid list_names params
    let e2 ← block_id_errors aid block_ids params
    .ok (e1 ++ e2)

def validate_answer_actions_list (aid : String) (list_names block_ids : Option (List String)) :
    List AnswerOption → Except String (List ErrorRec)
  | [] => .ok []
  | o :: rest => do
    let e ← validate_answer_actions_option aid list_names block_ids o
    let es ← validate_answer_actions_list aid list_names block_ids rest
    .ok (e ++ es)

/-- `AnswerValidator._validate_answer_actions` (adds to `self.errors`). -/
def validate_answer_actions (a : Answer) (list_names block_ids : Option (List String)) :
    Except String (List ErrorRec) :=
  validate_answer_actions_list a.id list_names block_ids (optionsOf a)

/-- `AnswerValidator.has_default_route`: true when some rule has no `goto`
or a `goto` without a `when` key. -/
def has_default_route (b : Block) : Except String Bool :=
  match b.routing_rules with
  | none => .error ("KeyError: routing_rules")
  | some rules => .ok (rules.any (fun r =>
      match r.goto with
      | none => true
      | some g => g.when.isNone))

/-- One `when` clause applied to the running `option_values` list:
`when["id"] == answer_id and when["value"] in option_values` removes the
first matching value. -/
def applyWhen (answer_id : String) (ovs : List SchemaValue) (w : RoutingWhen) :
    List SchemaValue :=
  match w.id, w.value with
  | some wid, some wv =>
    if wid = answer_id ∧ ovs.any (pyEq wv) then
      (ovs.takeWhile (fun v => ¬ pyEq wv v)) ++ (ovs.dropWhile (fun v => ¬ pyEq wv v)).tail
    else ovs
  | _, _ => ovs

/-- `AnswerValidator._validate_routing_on_answer_options`: returns its local
`answer_errors` list (discarded by `validate`). -/
def validate_routing_on_answer_options (a : Answer) (block : Option Block) :
    Except String (List String) :=
  match block with
  | none => .ok []
  | some b =>
    match b.routing_rules with
    | none => .ok []
    | some rules =>
      if rules.isEmpty ∨ (optionsOf a).isEmpty then .ok []
      else do
        let init := (optionsOf a).map (·.value)
        let final := rules.foldl (fun ovs rule =>
          match rule.goto with
          | some g =>
            match g.when with
            | some whens => whens.foldl (applyWhen a.id) ovs
            | none => []
          | none => []) init
        let has_unrouted : Bool := ¬ final.isEmpty ∧ final.length ≠ (optionsOf a).length
        let mand ← match a.mandatory with
          | none => Except.error ("KeyError: mandatory")
          | some m => Except.ok m
        let dflt ← has_default_route b
        let e1 := if mand = false ∧ ¬ dflt then
            ["Default route not defined for optional question [" ++ a.id ++ "]"]
          else []
        let e2 := if has_unrouted then
            ["Routing rule not defined for all answers or default not defined for answer ["
              ++ a.id ++ "] missing options " ++ pyReprList final]
          else []
        .ok (e1 ++ e2)

/-- `AnswerValidator._get_offset_date`: resolves `"now"` against the current
date, then parses and applies `offset_by` via `relativedelta`.  Non-string
values reach `re.match`/`strptime` and raise a `TypeError`; an empty string
parses to `None`, and `None + relativedelta` raises. -/
def get_offset_date (now : Date) (mm : MinMaxSpec) : Except String Date := do
  let v ← match mm.value with
    | some v => Except.ok v
    | none => Except.error ("KeyError: value")
  let s ← match v with
    | .str s => Except.ok (if s = "now" then formatYmd now else s)
    | _ => Except.error ("TypeError: expected string or bytes-like object")
  let offset := match mm.offset_by with
    | some o => o
    | none => OffsetBy.empty
  let d ← if s = "" then Except.error ("TypeError: unsupported operand type for +")
    else if matchesYmdPattern s.toList then strptimeYmd s
    else strptimeYm s
  .ok (addRelativeDelta d offset)

/-- `isinstance(v, dict)` for schema values. -/
def isDictSV : SchemaValue → Bool
  | .dict _ _ => true
  | _ => false

/-- `AnswerValidator.is_offset_date_valid`. -/
def is_offset_date_valid (now : Date) (a : Answer) : Except String Bool :=
  if a.type = "Date" then
    match a.minimum, a.maximum with
    | some mn, some mx =>
      match mn.value, mx.value with
      | some vmin, some vmax =>
        if ¬ isDictSV vmin ∧ ¬ isDictSV vmax then do
          let minimum_date ← get_offset_date now mn
          let maximum_date ← get_offset_date now mx
          .ok (dateLt minimum_date maximum_date)
        else .ok true
      | _, _ => .ok true
    | _, _ => .ok true
  else .ok true

/-- `AnswerValidator.validate_numeric_default` (adds to `self.errors`). -/
def validate_numeric_default (a : Answer) : List ErrorRec :=
  if a.mandatory = some true ∧ a.default.isSome then
    [mkError DEFAULT_ON_MANDATORY a.id []]
  else []

/-- `self.answer.get("minimum", \x7b\x7d).get("value", 0)` (note the integer
default here, unlike `get_numeric_range_values`). -/
def boundValueOrZero (mm : Option MinMaxSpec) : SchemaValue :=
  match mm with
  | none => .int 0
  | some m => m.value.getD (.int 0)

/-- `AnswerValidator.validate_numeric_answer_value` (adds to `self.errors`);
only `isinstance(…, int)` bounds are checked. -/
def validate_numeric_answer_value (a : Answer) : List ErrorRec :=
  let min_value := boundValueOrZero a.minimum
  let max_value := boundValueOrZero a.maximum
  let e1 := match min_value with
    | .int n => if n < MIN_NUMBER then
        [mkError MINIMUM_LESS_THAN_LIMIT a.id [(("value"), .int n), (("limit"), .int MIN_NUMBER)]]
      else []
    | _ => []
  let e2 := match max_value with
    | .int n => if n > MAX_NUMBER then
        [mkError MAXIMUM_GREATER_THAN_LIMIT a.id [(("value"), .int n), (("limit"), .int MAX_NUMBER)]]
      else []
    | _ => []
  e1 ++ e2

/-- `AnswerValidator.validate_numeric_answer_decimals` (adds to `self.errors`). -/
def validate_numeric_answer_decimals (a : Answer) : List ErrorRec :=
  let decimal_places := a.decimal_places.getD 0
  if decimal_places > MAX_DECIMAL_PLACES then
    [mkError DECIMAL_PLACES_TOO_LONG a.id
      [(("decimal_places"), .int decimal_places), (("limit"), .int MAX_DECIMAL_PLACES)]]
  else []

/-- `urllib.parse.urlparse` modelled for the three fields the source reads:
`scheme` (a leading alpha-then-alnum/`+`/`-`/`.` run before `:`), `netloc`
(after `//`, up to `/`, `?` or `#`), and `path` (up to `?` or `#`). -/
def urlparseFields (url : String) : String × String × String :=
  let cs := url.toList
  let schemeSplit : String × List Char :=
    match listFindIdx [':'] cs with
    | some i =>
      let cand := cs.take i
      if cand ≠ [] ∧ (cand.headD ' ').isAlpha
          ∧ cand.all (fun c => c.isAlphanum ∨ c = '+' ∨ c = '-' ∨ c = '.') then
        (String.mk (cand.map Char.toLower), cs.drop (i + 1))
      else ("", cs)
    | none => ("", cs)
  let (scheme, rest) := schemeSplit
  let (netloc, rest2) :=
    match rest with
    | '/' :: '/' :: tl =>
      (String.mk (tl.takeWhile (fun c => c ≠ '/' ∧ c ≠ '?' ∧ c ≠ '#')),
       tl.dropWhile (fun c => c ≠ '/' ∧ c ≠ '?' ∧ c ≠ '#'))
    | _ => ("", rest)
  let path := String.mk (rest2.takeWhile (fun c => c ≠ '?' ∧ c ≠ '#'))
  (scheme, netloc, path)

/-- `AnswerValidator.is_suggestion_url_valid`. -/
def is_suggestion_url_valid (a : Answer) : Except String Bool :=
  match a.suggestions_url with
  | none => .error ("KeyError: suggestions_url")
  | some url =>
    let (scheme, netloc, path) := urlparseFields url
    if scheme ≠ "" ∧ netloc ≠ "" then .ok true
    else .ok (path.length > 0 ∧ path.toList.all (fun c =>
      c.isAlphanum ∨ c = '_' ∨ c = '.' ∨ c = '-' ∨ c = '/' ∨ c = '~'))

/-- `AnswerValidator.validate`: runs every flat check in source order and
returns the accumulated `self.errors`.  The return values of
`_validate_duplicate_options`, `validate_labels_and_values_match` and
`_validate_routing_on_answer_options` are computed and then discarded, as
in the source (exceptions they raise still propagate). -/
def validate (now : Date) (a : Answer) (block : Option Block)
    (list_names block_ids : Option (List String)) : Except String (List ErrorRec) := do
  let _dup := validate_duplicate_options a
  let e1 ← validate_answer_actions a list_names block_ids
  let _lv ← validate_labels_and_values_match a
  let _rt ← validate_routing_on_answer_options a block
  let e2 := if ¬ are_decimal_places_valid a then [mkError DECIMAL_PLACES_UNDEFINED a.id []] else []
  let offset_ok ← is_offset_date_valid now a
  let e3 := if ¬ offset_ok then [mkError INVALID_OFFSET_DATE a.id []] else []
  let e4 ← if a.type = "TextField" ∧ a.suggestions_url.isSome then do
      let ok ← is_suggestion_url_valid a
      pure (if ¬ ok then [mkError INVALID_SUGGESTION_URL a.id []] else [])
    else pure []
  let e567 := if a.type = "Number" ∨ a.type = "Currency" ∨ a.type = "Percentage" then
      validate_numeric_default a ++ validate_numeric_answer_value a
        ++ validate_numeric_answer_decimals a
    else []
  pure (e1 ++ e2 ++ e3 ++ e4 ++ e567)

/-! ### `validate_numeric_answer_types` and its helpers -/

/-- `self.answer["minimum"]["value"]["identifier"]` (and the `maximum`
variant), used when formatting the dangling-reference error message. -/
def subscriptIdentifier (mm : Option MinMaxSpec) (keyname : String) : Except String String :=
  match mm with
  | none => .error ("KeyError: " ++ keyname)
  | some m =>
    match m.value with
    | none => .error ("KeyError: value")
    | some (.dict _ (some ident)) => .ok ident
    | some (.dict _ none) => .error ("KeyError: identifier")
    | some _ => .error ("TypeError: value is not subscriptable")

def referencedMinMsg (ident aid : String) : String :=
  "The referenced answer \"" ++ ident ++ "\" can not be used to set the minimum of answer \""
    ++ aid ++ "\""

def referencedMaxMsg (ident aid : String) : String :=
  "The referenced answer \"" ++ ident ++ "\" can not be used to set the maximum of answer \""
    ++ aid ++ "\""

/-- `AnswerValidator._validate_referred_numeric_answer`: adds at most one
error and reports (via `true`) that the numeric checks must be skipped. -/
def validate_referred_numeric_answer (a : Answer) (answer_ranges : RangeTable) :
    Except String (List ErrorRec × Bool) := do
  let entry ← match lookupRange answer_ranges a.id with
    | some e => Except.ok e
    | none => Except.error ("KeyError: " ++ a.id)
  if entry.min = none then do
    let ident ← subscriptIdentifier a.minimum ("minimum")
    .ok ([mkError (referencedMinMsg ident a.id) a.id []], true)
  else if entry.max = none then do
    let ident ← subscriptIdentifier a.maximum ("maximum")
    .ok ([mkError (referencedMaxMsg ident a.id) a.id []], true)
  else .ok ([], false)

/-- Python `max_value - min_value` where either side may be `None` or a
non-number: only numbers subtract, anything else is a `TypeError`. -/
def svSub (x y : Option SchemaValue) : Except String ℚ :=
  match x, y with
  | some a, some b =>
    match a.asQ, b.asQ with
    | some qa, some qb => .ok (qa - qb)
    | _, _ => .error ("TypeError: unsupported operand type for -")
  | _, _ => .error ("TypeError: unsupported operand type for -")

/-- `AnswerValidator._validate_numeric_range` (adds to `self.errors`). -/
def validate_numeric_range (a : Answer) (answer_ranges : RangeTable) :
    Except String (List ErrorRec) := do
  let entry ← match lookupRange answer_ranges a.id with
    | some e => Except.ok e
    | none => Except.error ("KeyError: " ++ a.id)
  let diff ← svSub entry.max entry.min
  if diff < 0 then
    .ok [mkError ("Invalid range of min = " ++ (match entry.min with | some v => pyStr v | none => "None")
      ++ " and max = " ++ (match entry.max with | some v => pyStr v | none => "None")
      ++ " is possible for answer \"" ++ a.id ++ "\".") a.id []]
  else .ok []

def referredDecimalsMsg (refId aid : String) : String :=
  "The referenced answer \"" ++ refId ++ "\" has a greater number of decimal places than answer \""
    ++ aid ++ "\""

/-- `AnswerValidator._validate_referred_numeric_answer_decimals` (adds to
`self.errors`); `answer_ranges[referred_id]` raises when absent. -/
def validate_referred_numeric_answer_decimals (a : Answer) (answer_ranges : RangeTable) :
    Except String (List ErrorRec) := do
  let entry ← match lookupRange answer_ranges a.id with
    | some e => Except.ok e
    | none => Except.error ("KeyError: " ++ a.id)
  let e1 ← match entry.min_referred with
    | some refId => do
      let referred ← match lookupRange answer_ranges refId with
        | some e => Except.ok e
        | none => Except.error ("KeyError: " ++ refId)
      Except.ok (if entry.decimal_places < referred.decimal_places then
        [mkError (referredDecimalsMsg refId a.id) a.id []] else [])
    | none => Except.ok []
  let e2 ← match entry.max_referred with
    | some refId => do
      let referred ← match lookupRange answer_ranges refId with
        | some e => Except.ok e
        | none => Except.error ("KeyError: " ++ refId)
      Except.ok (if entry.decimal_places < referred.decimal_places then
        [mkError (referredDecimalsMsg refId a.id) a.id []] else [])
    | none => Except.ok []
  .ok (e1 ++ e2)

/-- `AnswerValidator.validate_numeric_answer_types`: the dangling-reference
check short-circuits the range and precision checks. -/
def validate_numeric_answer_types (a : Answer) (answer_ranges : RangeTable) :
    Except String (List ErrorRec) := do
  let (referred_errors, skip) ← validate_referred_numeric_answer a answer_ranges
  if skip then .ok referred_errors
  else do
    let e2 ← validate_numeric_range a answer_ranges
    let e3 ← validate_referred_numeric_answer_decimals a answer_ranges
    .ok (referred_errors ++ e2 ++ e3)

end AnswerValidator

/-! ### The schema document (`questionnaire_schema.py` works on raw JSON) -/

inductive JSON where
  | null
  | bool (b : Bool)
  | num (q : ℚ)
  | str (s : String)
  | arr (xs : List JSON)
  | obj (kvs : List (String × JSON))
deriving Repr

mutual

def JSON.beq : JSON → JSON → Bool
  | .null, .null => true
  | .bool a, .bool b => a == b
  | .num a, .num b => a == b
  | .str a, .str b => a == b
  | .arr xs, .arr ys => JSON.beqList xs ys
  | .obj xs, .obj ys => JSON.beqObj xs ys
  | _, _ => false

def JSON.beqList : List JSON → List JSON → Bool
  | [], [] => true
  | x :: xs, y :: ys => JSON.beq x y && JSON.beqList xs ys
  | _, _ => false

def JSON.beqObj : List (String × JSON) → List (String × JSON) → Bool
  | [], [] => true
  | (k1, v1) :: xs, (k2, v2) :: ys => k1 == k2 && JSON.beq v1 v2 && JSON.beqObj xs ys
  | _, _ => false

end

instance : BEq JSON := ⟨JSON.beq⟩

/-- Mapping lookup (keys in a parsed JSON mapping are unique). -/
def jLookup (kvs : List (String × JSON)) (k : String) : Option JSON :=
  match kvs with
  | [] => none
  | (k1, v) :: rest => if k1 = k then some v else jLookup rest k

namespace QuestionnaireSchema

/-- `str(match.full_path)` path components are joined with `.`; array steps
print as `[i]`. -/
def joinPath (pre k : String) : String :=
  if pre = "" then k else pre ++ (".") ++ k

mutual

/-- All matches of `parse("$..KEY").find(schema)` as `(full_path, value)`
pairs: at each node the node's own `KEY` field (if any) is yielded first,
then every child is searched in document order. -/
def keyMatches (key : String) : JSON → String → List (String × JSON)
  | .obj kvs, pre =>
    (match jLookup kvs key with
     | some v => [(joinPath pre key, v)]
     | none => []) ++ keyMatchesObj key kvs pre
  | .arr xs, pre => keyMatchesArr key xs 0 pre
  | _, _ => []

def keyMatchesObj (key : String) : List (String × JSON) → String → List (String × JSON)
  | [], _ => []
  | (k, v) :: rest, pre =>
    keyMatches key v (joinPath pre k) ++ keyMatchesObj key rest pre

def keyMatchesArr (key : String) : List JSON → ℕ → String → List (String × JSON)
  | [], _, _ => []
  | x :: rest, i, pre =>
    keyMatches key x (pre ++ (".[") ++ toString i ++ ("]")) ++ keyMatchesArr key rest (i + 1) pre

end

/-- The `ignored_paths` list of `QuestionnaireSchema.id_paths`, exactly as
the source writes it: the first element is the Python juxtaposition
`"routing_rules" "skip_conditions"`, i.e. the single concatenated string
`"routing_rulesskip_conditions"` (there is no comma between them). -/
def ignored_paths : List String :=
  ["routing_rules" ++ "skip_conditions",
   "when",
   "edit_block.question.answers",
   "add_block.question.answers",
   "remove_block.question.answers",
   "edit_block.question_variants.answers",
   "add_block.question_variants.answers",
   "remove_block.question_variants.answers"]

/-- `QuestionnaireSchema.id_paths`: every `$..id` match whose path contains
none of the ignored substrings, as `(str(full_path)[:-3], value)`. -/
def id_paths (schema : JSON) : List (String × JSON) :=
  (keyMatches ("id") schema "").filterMap (fun pv =>
    if ignored_paths.any (fun ip => pyIn ip pv.1) then none
    else some (pyDropRight pv.1 3, pv.2))

/-- Append an element to a set modelled as a duplicate-free list (Python
`set.add`; iteration order is modelled as insertion order, which is all the
membership-level statements below depend on). -/
def setAdd (s : List JSON) (v : JSON) : List JSON :=
  if s.any (fun x => x == v) then s else s ++ [v]

/-- Insert into the `defaultdict(set)` keyed by block path. -/
def addToBlockSets (m : List (String × List JSON)) (key : String) (v : JSON) :
    List (String × List JSON) :=
  match m with
  | [] => [(key, [v])]
  | (k, s) :: rest => if k = key then (k, setAdd s v) :: rest else (k, s) :: addToBlockSets rest key v

/-- `QuestionnaireSchema.ids`: ids on paths through `blocks` are de-duplicated
per block path; all other ids are kept as-is.  `path_list.index("blocks")`
raises when no component is exactly `"blocks"`. -/
def ids (schema : JSON) : Except String (List JSON) := do
  let step := fun (st : List (String × List JSON) × List JSON) (pv : String × JSON) => do
    let (blockSets, nonBlock) := st
    if pyIn ("blocks") pv.1 then do
      let path_list := pySplit pv.1 '.' 
      let i ← match path_list.indexOf? ("blocks") with
        | some i => Except.ok i
        | none => Except.error ("ValueError: " ++ "blocks" ++ " is not in list")
      let string_path := pyJoin (".") (path_list.take (i + 2))
      Except.ok (addToBlockSets blockSets string_path pv.2, nonBlock)
    else
      Except.ok (blockSets, nonBlock ++ [pv.2])
  let (blockSets, nonBlock) ← (id_paths schema).foldlM step ([], [])
  .ok ((blockSets.map Prod.snd).flatten ++ nonBlock)

/-- `jp.match("$.sections[*].id", schema)`. -/
def section_ids (schema : JSON) : List JSON :=
  match schema with
  | .obj kvs =>
    match jLookup kvs ("sections") with
    | some (.arr xs) => xs.filterMap (fun x =>
        match x with
        | .obj kv => jLookup kv ("id")
        | _ => none)
    | _ => []
  | _ => []

/-- `jp.match("$..blocks[*]", schema)`: the elements of every descendant
`blocks` array, in document order. -/
def collectBlocks (schema : JSON) : List JSON :=
  (keyMatches ("blocks") schema "").flatMap (fun pv =>
    match pv.2 with
    | .arr xs => xs
    | _ => [])

/-- `self.blocks_by_id`: `{block["id"]: block for block in self.blocks}`
(later keys overwrite earlier ones; a block without `id` raises). -/
def blocks_by_id (schema : JSON) : Except String (List (JSON × JSON)) :=
  (collectBlocks schema).foldlM (fun acc b => do
    let bid ← match b with
      | .obj kvs =>
        (match jLookup kvs ("id") with
         | some v => Except.ok v
         | none => Except.error ("KeyError: id"))
      | _ => Except.error ("TypeError: block is not a mapping")
    let acc := acc.filter (fun kv => ¬ (kv.1 == bid))
    .ok (acc ++ [(bid, b)])) []

/-- `QuestionnaireSchema.get_key_index_from_path`:
`int(path[position : position + 1])` reads exactly one character after the
bracket that follows `key`. -/
def get_key_index_from_path (key path : String) : Except String ℕ :=
  let position : ℤ := pyFind path key + (key ++ (".[")).length
  pyIntOfString (pySlice path position (position + 1))

/-- `QuestionnaireSchema.get_element_path`:
`path[: position + len(key + ".[0]")]` keeps the key and one index character. -/
def get_element_path (key path : String) : String :=
  pySlice path 0 (pyFind path key + ((key ++ (".[0]")).length : ℤ))

/-- One syntactic component of a re-parsed dotted jsonpath: a field name or
a bracketed index.  A malformed component (e.g. `[1` from a truncated
two-digit index) is a jsonpath lexer error. -/
def parseComponent (c : String) : Except String (Sum String ℕ) :=
  if c = "" then .error ("JsonPathLexerError: empty component")
  else match c.toList with
    | '[' :: rest =>
      if rest.getLast? = some (']') ∧ allDigits (String.mk (rest.dropLast)) then
        .ok (.inr (digitsToNat rest.dropLast))
      else .error ("JsonPathLexerError: malformed index")
    | _ => .ok (.inl c)

def resolveComponents (j : JSON) : List (Sum String ℕ) → Option JSON
  | [] => some j
  | .inl field :: rest =>
    (match j with
     | .obj kvs => jLookup kvs field
     | _ => none).bind (fun v => resolveComponents v rest)
  | .inr i :: rest =>
    (match j with
     | .arr xs => xs.get? i
     | _ => none).bind (fun v => resolveComponents v rest)

/-- `QuestionnaireSchema.get_path_id`: `jp.match1(path + ".id", schema)` —
a parse error raises, no match yields `None`. -/
def get_path_id (schema : JSON) (path : String) : Except String (Option JSON) := do
  let comps ← (pySplit (path ++ (".id")) '.').mapM parseComponent
  .ok (resolveComponents schema comps)

structure PathContext where
  sectionId : JSON
  block : Option JSON
  group_id : Option JSON
deriving Repr

def PathContext.beq (a b : PathContext) : Bool :=
  a.sectionId == b.sectionId && a.block == b.block && a.group_id == b.group_id

instance : BEq PathContext := ⟨PathContext.beq⟩

def sub_block_keys : List String :=
  ["add_block", "edit_block", "add_or_edit_block", "remove_block"]

/-- `QuestionnaireSchema.get_context_from_path`. -/
def get_context_from_path (schema : JSON) (full_path : String) :
    Except String PathContext := do
  let section_index ← get_key_index_from_path ("sections") full_path
  let block_path := get_element_path ("blocks") full_path
  let group_path := get_element_path ("groups") full_path
  let group_id ← get_path_id schema group_path
  let block_id ← get_path_id schema block_path
  let block_id ←
    if sub_block_keys.any (fun sb => pyIn sb full_path) then do
      let key_path := pySlice full_path ((block_path.length : ℤ) + 1) full_path.length
      let key := pySlice key_path 0 (pyFind key_path (".question"))
      let table ← blocks_by_id schema
      let blk ← match block_id.bind (fun bid => (table.find? (fun kv => kv.1 == bid)).map Prod.snd) with
        | some b => Except.ok b
        | none => Except.error ("KeyError: block id")
      let sub ← match blk with
        | .obj kvs =>
          (match jLookup kvs key with
           | some v => Except.ok v
           | none => Except.error ("KeyError: " ++ key))
        | _ => Except.error ("TypeError: block is not a mapping")
      match sub with
      | .obj kvs =>
        (match jLookup kvs ("id") with
         | some v => Except.ok (some v)
         | none => Except.error ("KeyError: id"))
      | _ => Except.error ("TypeError: sub-block is not a mapping")
    else Except.ok block_id
  let s ← match (section_ids schema).get? section_index with
    | some v => Except.ok v
    | none => Except.error ("IndexError: list index out of range")
  .ok ⟨s, block_id, group_id⟩

/-- The full yield sequence of the `questions_with_context` generator:
every `$..question` match paired with its resolved context. -/
def questions_with_context_list (schema : JSON) :
    Except String (List (JSON × PathContext)) :=
  (keyMatches ("question") schema "").mapM (fun pv => do
    let ctx ← get_context_from_path schema pv.1
    pure (pv.2, ctx))

/-- The mutable state behind the `@cached_property` generators
`questions_with_context` and `answers`: `cached_property` caches the
generator object itself, so iteration permanently consumes it. -/
structure CachedGenState where
  questions_remaining : List (JSON × PathContext)

/-- Construct the schema object: the first access to the cached property
creates the generator, still unconsumed. -/
def initCachedGen (schema : JSON) : Except String CachedGenState :=
  (questions_with_context_list schema).map (fun items => ⟨items⟩)

/-- Fully iterate `questions_with_context`: yields whatever remains in the
cached generator and leaves it exhausted. -/
def iterate_questions_with_context (st : CachedGenState) :
    List (JSON × PathContext) × CachedGenState :=
  (st.questions_remaining, ⟨[]⟩)

/-- Fully iterate the `answers` generator, which itself drains the shared
`questions_with_context` generator (`question["answers"]` raises when the
key is absent or is not a sequence of answers). -/
def iterate_answers (st : CachedGenState) :
    Except String (List JSON) × CachedGenState :=
  ((st.questions_remaining).foldlM (fun acc qc =>
    match qc.1 with
    | .obj kvs =>
      (match jLookup kvs ("answers") with
       | some (.arr xs) => Except.ok (acc ++ xs)
       | some _ => Except.error ("TypeError: answers is not iterable")
       | none => Except.error ("KeyError: answers"))
    | _ => Except.error ("TypeError: question is not a mapping")) [],
   ⟨[]⟩)

end QuestionnaireSchema

/-! ### Specification-side predicates and concrete instances used by the
claim theorems -/

namespace AnswerValidator

/-- The claim's wording of an unresolvable bound: the defined value is a
reference `\x7bsource: "answers", identifier: X\x7d` and `X` is absent from the
range table. -/
def danglingRef (v : SchemaValue) (r : RangeTable) : Prop :=
  ∃ X, v = .dict (some ("answers")) (some X) ∧ lookupRange r X = none

end AnswerValidator

open AnswerValidator QuestionnaireSchema

def now0 : Date := ⟨2021, 6, 15⟩

/-- A numeric answer whose minimum references answer `x`, absent from the
range table. -/
def aC1 : Answer where
  id := "a1"
  type := "Number"
  mandatory := none
  options := none
  minimum := some ⟨some (.dict (some ("answers")) (some ("x"))), none⟩
  maximum := some ⟨some (.int 10), none⟩
  decimal_places := none
  default := none
  calculated := false
  exclusive := false
  suggestions_url := none

/-- The entry `get_numeric_range_values` produces for `aC1` on an empty table. -/
def eC1 : RangeEntry := ⟨none, some (.int 10), 0, some ("x"), none, none⟩

/-- A range table in which `aC1`'s own entry has the sentinel minimum. -/
def rC2 : RangeTable := [(("a1"), eC1)]

/-- An exclusive numeric answer with literal bounds and one decimal place. -/
def aC7 : Answer where
  id := "a7"
  type := "Number"
  mandatory := none
  options := none
  minimum := some ⟨some (.int 1), none⟩
  maximum := some ⟨some (.int 10), none⟩
  decimal_places := some 1
  default := none
  calculated := false
  exclusive := true
  suggestions_url := none

/-- An answer with duplicate option values `["a", "a"]` (distinct labels). -/
def a5 : Answer where
  id := "a5"
  type := "Radio"
  mandatory := some true
  options := some [⟨.str "a", .str "a", none⟩, ⟨.str "b", .str "a", none⟩]
  minimum := none
  maximum := none
  decimal_places := none
  default := none
  calculated := false
  exclusive := false
  suggestions_url := none

/-- A block whose routing rules cover both option values of `a6` with
explicit `when` clauses (no default rule). -/
def b6 : Block := ⟨some [
  ⟨some ⟨some [⟨some ("a6"), some (.str "x")⟩]⟩⟩,
  ⟨some ⟨some [⟨some ("a6"), some (.str "y")⟩]⟩⟩ ]⟩

/-- An optional (mandatory = false) answer with options `x`, `y`. -/
def a6 : Answer where
  id := "a6"
  type := "Radio"
  mandatory := some false
  options := some [⟨.str "x", .str "x", none⟩, ⟨.str "y", .str "y", none⟩]
  minimum := none
  maximum := none
  decimal_places := none
  default := none
  calculated := false
  exclusive := false
  suggestions_url := none

/-- The spec's boundary example: minimum `2020-01` offset by one month,
maximum `2020-02`. -/
def mn8 : MinMaxSpec := ⟨some (.str "2020-01"), some ⟨none, some 1, none⟩⟩

def mx8 : MinMaxSpec := ⟨some (.str "2020-02"), none⟩

def a8 : Answer where
  id := "a8"
  type := "Date"
  mandatory := some true
  options := none
  minimum := some mn8
  maximum := some mx8
  decimal_places := none
  default := none
  calculated := false
  exclusive := false
  suggestions_url := none

/-- A schema document with an `id` occurrence under `routing_rules` whose
path does not contain `when` or any other ignored substring. -/
def c3doc : JSON := .obj [
  (("sections"), .arr [ .obj [
    (("id"), .str "s1"),
    (("groups"), .arr [ .obj [
      (("id"), .str "g1"),
      (("blocks"), .arr [ .obj [
        (("id"), .str "b1"),
        (("routing_rules"), .arr [ .obj [ (("goto"), .obj [ (("id"), .str "target") ]) ] ])
      ] ])
    ] ])
  ] ])
]

/-- A schema document with a single question holding a single answer. -/
def c4doc : JSON := .obj [
  (("sections"), .arr [ .obj [
    (("id"), .str "s0"),
    (("groups"), .arr [ .obj [
      (("id"), .str "g0"),
      (("blocks"), .arr [ .obj [
        (("id"), .str "b0"),
        (("question"), .obj [
          (("id"), .str "q0"),
          (("answers"), .arr [ .obj [ (("id"), .str "ans0") ] ])
        ])
      ] ])
    ] ])
  ] ])
]

/-- What one full iteration of `questions_with_context` yields on `c4doc`. -/
def c4items : List (JSON × PathContext) :=
  [(.obj [ (("id"), .str "q0"), (("answers"), .arr [ .obj [ (("id"), .str "ans0") ] ]) ],
    ⟨.str "s0", some (.str "b0"), some (.str "g0")⟩)]

def mkSec (i : String) : JSON := .obj [ (("id"), .str ("s" ++ i)) ]

/-- Section 12 of the `c10doc` document, the only one with content. -/
def c10sec12 : JSON := .obj [
  (("id"), .str "s12"),
  (("groups"), .arr [ .obj [
    (("id"), .str "g12"),
    (("blocks"), .arr [ .obj [
      (("id"), .str "b12"),
      (("question"), .obj [ (("id"), .str "q12"), (("answers"), .arr []) ])
    ] ])
  ] ])
]

/-- Thirteen sections `s0` … `s12`. -/
def c10doc : JSON := .obj [
  (("sections"), .arr [ mkSec "0", mkSec "1", mkSec "2", mkSec "3", mkSec "4", mkSec "5",
    mkSec "6", mkSec "7", mkSec "8", mkSec "9", mkSec "10", mkSec "11", c10sec12 ])
]

/-- A path into the thirteenth (index 12) section's question. -/
def c10path : String := "sections.[12].groups.[0].blocks.[0].question"

def mkGrp (i : String) : JSON := .obj [ (("id"), .str ("g" ++ i)) ]

/-- One section holding thirteen groups; groups 1 and 12 contain blocks. -/
def cgsec : JSON := .obj [
  (("id"), .str "s0"),
  (("groups"), .arr [ mkGrp "0", .obj [
    (("id"), .str "g1"),
    (("blocks"), .arr [ .obj [ (("id"), .str "bX"), (("question"), .obj [ (("id"), .str "qX") ]) ] ])
  ], mkGrp "2", mkGrp "3", mkGrp "4", mkGrp "5", mkGrp "6", mkGrp "7", mkGrp "8",
    mkGrp "9", mkGrp "10", mkGrp "11", .obj [
    (("id"), .str "g12"),
    (("blocks"), .arr [ .obj [ (("id"), .str "b12g"), (("question"), .obj [ (("id"), .str "q12g") ]) ] ])
  ] ])
]

def cgdoc : JSON := .obj [ (("sections"), .arr [ cgsec ]) ]

/-- A path whose `groups` index has two digits. -/
def cgpath : String := "sections.[0].groups.[12].blocks.[0].question"

/-- The entry produced for `aC7` (exclusive, one decimal place): bounds
shifted by one tenth. -/
def e7 : RangeEntry := ⟨some (.float (11 / 10)), some (.float (99 / 10)), 1, none, none, none⟩

/-- The entry produced for `aC7` with `exclusive` unset. -/
def e7x : RangeEntry := ⟨some (.int 1), some (.int 10), 1, none, none, none⟩

/-! ### Claim theorems -/

/-- C9: for an answer with `exclusive` set whose minimum is a reference to
an answer absent from the range table, `get_numeric_range_values` does not
return a sentinel-carrying `RangeEntry` but raises (`None + float` is a
`TypeError`), so the function is not total on sentinel-producing inputs.
Without `exclusive` the same answer yields the sentinel entry `eC1`. -/
theorem c9_exclusive_dangling_reference_raises :
    get_numeric_range_values { aC1 with exclusive := true } [] =
      .error ("TypeError: unsupported operand type for +")
    ∧ get_numeric_range_values aC1 [] = .ok eC1 := ⟨rfl, rfl⟩

/-- C5: `_validate_duplicate_options` computes exactly one duplicate-value
error for option values `["a", "a"]`, naming the value once — but
`validate()` discards the returned list, so the validator's accumulated
error records stay empty. -/
theorem c5_duplicate_value_error_is_discarded :
    validate_duplicate_options a5 = ["Duplicate value found - a"]
    ∧ validate now0 a5 none none none = .ok [] := ⟨rfl, rfl⟩

/-- C6: with every option value covered by explicit `when` clauses and the
answer mandatory, `_validate_routing_on_answer_options` returns no errors;
with the same answer optional and no default rule it returns exactly the
"default route not defined" error — but `validate()` discards that return
value, so its accumulated error records contain no routing error. -/
theorem c6_default_route_error_is_discarded :
    validate_routing_on_answer_options { a6 with mandatory := some true } (some b6) = .ok []
    ∧ validate_routing_on_answer_options a6 (some b6) =
        .ok ["Default route not defined for optional question [a6]"]
    ∧ validate now0 a6 (some b6) none none = .ok [] := ⟨rfl, rfl, rfl⟩

/-- C3: the id occurrence at
`sections.[0].groups.[0].blocks.[0].routing_rules.[0].goto.id` of `c3doc`
lies under `routing_rules` (and under no `when`), yet `id_paths` yields it
and it reaches the `ids` collection: the source's `ignored_paths` list
accidentally concatenates `"routing_rules" "skip_conditions"` into the
single string `"routing_rulesskip_conditions"`, so neither substring is
excluded on its own. -/
theorem c3_routing_rules_id_not_excluded :
    (id_paths c3doc).contains
      (("sections.[0].groups.[0].blocks.[0].routing_rules.[0].goto"), JSON.str "target") = true
    ∧ (∃ l, ids c3doc = .ok l ∧ l.contains (JSON.str "target") = true)
    ∧ ignored_paths.contains ("routing_rulesskip_conditions") = true
    ∧ ignored_paths.contains ("routing_rules") = false := ⟨rfl, ⟨_, rfl, rfl⟩, rfl, rfl⟩

/-- C4: `questions_with_context` (and the `answers` generator built on it)
is a `cached_property` generator: the first full iteration over `c4doc`
yields its one question, the second yields nothing, and draining `answers`
after the shared generator is consumed yields no answers — re-iteration is
not idempotent. -/
theorem c4_cached_generator_is_exhausted :
    questions_with_context_list c4doc = .ok c4items
    ∧ c4items.length = 1
    ∧ (iterate_questions_with_context ⟨c4items⟩).1 = c4items
    ∧ (iterate_questions_with_context (iterate_questions_with_context ⟨c4items⟩).2).1 = []
    ∧ (iterate_answers ⟨c4items⟩).1 = .ok [.obj [(("id"), .str "ans0")]]
    ∧ (iterate_answers (iterate_questions_with_context ⟨c4items⟩).2).1 = .ok [] :=
  ⟨rfl, rfl, rfl, rfl, rfl, rfl⟩

/-- C10 counterexample: for a path whose `groups` index is 12,
`get_context_from_path` does not resolve a context at all (the truncated
element path `groups.[12` re-parses as a malformed jsonpath and raises), so
a groups index of 10 or more is not "treated as the first digit's index". -/
theorem c10_counterexample_groups_two_digit_index :
    get_context_from_path cgdoc cgpath = .error ("JsonPathLexerError: malformed index") := rfl

theorem get_numeric_value_none_iff (v sd : SchemaValue) (r : RangeTable) (o : Option SchemaValue)
    (h : get_numeric_value v sd r = .ok o) : o = none ↔ danglingRef v r := by
  cases v with
  | dict src ident =>
    simp only [get_numeric_value] at h
    by_cases hs : src = some ("answers")
    · rw [if_pos hs] at h
      cases ident with
      | none => simp at h
      | some i =>
        dsimp only at h
        cases hl : lookupRange r i with
        | none =>
          rw [hl] at h
          simp only [Except.ok.injEq] at h
          subst h
          exact iff_of_true rfl ⟨i, by rw [hs], hl⟩
        | some e0 =>
          rw [hl] at h
          simp only [Except.ok.injEq] at h
          subst h
          refine iff_of_false (by simp) ?_
          rintro ⟨X, hX, hlX⟩
          obtain rfl : i = X := (by simpa using hX : _ ∧ i = X).2
          simp [hl] at hlX
    · rw [if_neg hs] at h
      simp only [Except.ok.injEq] at h
      subst h
      refine iff_of_false (by simp) ?_
      rintro ⟨X, hX, -⟩
      have : src = some ("answers") ∧ ident = some X := by
        simpa using hX
      exact hs this.1
  | int n =>
    simp only [get_numeric_value, Except.ok.injEq] at h
    subst h
    simp [danglingRef]
  | float q =>
    simp only [get_numeric_value, Except.ok.injEq] at h
    subst h
    simp [danglingRef]
  | str s =>
    simp only [get_numeric_value, Except.ok.injEq] at h
    subst h
    simp [danglingRef]

theorem get_answer_minimum_none_iff (v : SchemaValue) (d : ℤ) (ex : Bool) (r : RangeTable)
    (m : Option SchemaValue) (h : get_answer_minimum v d ex r = .ok m) :
    m = none ↔ danglingRef v r := by
  unfold get_answer_minimum at h
  cases hg : get_numeric_value v (.int 0) r with
  | error e => rw [hg] at h; simp [Bind.bind, Except.bind] at h
  | ok mv =>
    rw [hg] at h
    have hiff := get_numeric_value_none_iff v (.int 0) r mv hg
    cases ex with
    | false =>
      simp only [Bind.bind, Except.bind, if_neg (by simp : ¬ (false = true))] at h
      simp only [Except.ok.injEq] at h
      subst h
      exact hiff
    | true =>
      simp only [Bind.bind, Except.bind, if_true] at h
      cases mv with
      | none => simp at h
      | some v0 =>
        refine iff_of_false ?_ ((not_iff_not.mpr hiff).mp (by simp))
        cases v0 with
        | int n =>
          simp only [svAddQ, Except.map, Except.ok.injEq] at h
          simp [← h]
        | float q =>
          simp only [svAddQ, Except.map, Except.ok.injEq] at h
          simp [← h]
        | str s => simp [svAddQ, Except.map] at h
        | dict s1 i1 => simp [svAddQ, Except.map] at h

theorem get_answer_maximum_none_iff (v : SchemaValue) (d : ℤ) (ex : Bool) (r : RangeTable)
    (m : Option SchemaValue) (h : get_answer_maximum v d ex r = .ok m) :
    m = none ↔ danglingRef v r := by
  unfold get_answer_maximum at h
  cases hg : get_numeric_value v (.int MAX_NUMBER) r with
  | error e => rw [hg] at h; simp [Bind.bind, Except.bind] at h
  | ok mv =>
    rw [hg] at h
    have hiff := get_numeric_value_none_iff v (.int MAX_NUMBER) r mv hg
    cases ex with
    | false =>
      simp only [Bind.bind, Except.bind, if_neg (by simp : ¬ (false = true))] at h
      simp only [Except.ok.injEq] at h
      subst h
      exact hiff
    | true =>
      simp only [Bind.bind, Except.bind, if_true] at h
      cases mv with
      | none => simp at h
      | some v0 =>
        refine iff_of_false ?_ ((not_iff_not.mpr hiff).mp (by simp))
        cases v0 with
        | int n =>
          simp only [svAddQ, Except.map, Except.ok.injEq] at h
          simp [← h]
        | float q =>
          simp only [svAddQ, Except.map, Except.ok.injEq] at h
          simp [← h]
        | str s => simp [svAddQ, Except.map] at h
        | dict s1 i1 => simp [svAddQ, Except.map] at h

/-- C1: an entry produced by `get_numeric_range_values` has a sentinel
(`None`) min (resp. max) exactly when the answer's minimum (resp. maximum)
value is a reference `\x7bsource: "answers", identifier: X\x7d` with `X` absent
from the supplied range table; literal bounds, absent bounds and references
to present entries never produce the sentinel. -/
theorem c1_sentinel_iff_dangling_reference (a : Answer) (r : RangeTable) (e : RangeEntry)
    (h : get_numeric_range_values a r = .ok e) :
    (e.min = none ↔ danglingRef (effectiveValue a.minimum) r) ∧
    (e.max = none ↔ danglingRef (effectiveValue a.maximum) r) := by
  unfold get_numeric_range_values at h
  dsimp only at h
  cases hm : get_answer_minimum (effectiveValue a.minimum) (a.decimal_places.getD 0)
      a.exclusive r with
  | error e1 => rw [hm] at h; simp [Bind.bind, Except.bind] at h
  | ok mv =>
    rw [hm] at h
    cases hx : get_answer_maximum (effectiveValue a.maximum) (a.decimal_places.getD 0)
        a.exclusive r with
    | error e2 => rw [hx] at h; simp [Bind.bind, Except.bind] at h
    | ok xv =>
      rw [hx] at h
      simp only [Bind.bind, Except.bind, Except.ok.injEq] at h
      subst h
      exact ⟨get_answer_minimum_none_iff _ _ _ _ _ hm, get_answer_maximum_none_iff _ _ _ _ _ hx⟩

/-- C1 witness: for `aC1` (minimum referencing the absent answer `x`) on the
empty table, the produced entry is `eC1`, whose min is the sentinel. -/
theorem c1_sentinel_iff_dangling_reference_witness :
    (eC1.min = none ↔ danglingRef (effectiveValue aC1.minimum) []) ∧
    (eC1.max = none ↔ danglingRef (effectiveValue aC1.maximum) []) :=
  c1_sentinel_iff_dangling_reference aC1 [] eC1 rfl

theorem get_numeric_range_values_eq (a : Answer) (r : RangeTable) (e : RangeEntry)
    (h : get_numeric_range_values a r = .ok e) :
    get_answer_minimum (effectiveValue a.minimum) (a.decimal_places.getD 0) a.exclusive r
        = .ok e.min ∧
    get_answer_maximum (effectiveValue a.maximum) (a.decimal_places.getD 0) a.exclusive r
        = .ok e.max ∧
    e.decimal_places = a.decimal_places.getD 0 := by
  unfold get_numeric_range_values at h
  dsimp only at h
  cases hm : get_answer_minimum (effectiveValue a.minimum) (a.decimal_places.getD 0)
      a.exclusive r with
  | error e1 => rw [hm] at h; simp [Bind.bind, Except.bind] at h
  | ok mv =>
    rw [hm] at h
    cases hx : get_answer_maximum (effectiveValue a.maximum) (a.decimal_places.getD 0)
        a.exclusive r with
    | error e2 => rw [hx] at h; simp [Bind.bind, Except.bind] at h
    | ok xv =>
      rw [hx] at h
      simp only [Bind.bind, Except.bind, Except.ok.injEq] at h
      subst h
      exact ⟨rfl, rfl, rfl⟩

theorem get_answer_minimum_exclusive_pair (v : SchemaValue) (d : ℤ) (r : RangeTable)
    (m m' : Option SchemaValue)
    (h : get_answer_minimum v d true r = .ok m)
    (h' : get_answer_minimum v d false r = .ok m') :
    ∃ q, m'.bind SchemaValue.asQ = some q ∧ m = some (.float (q + 1 / (10 : ℚ) ^ d)) ∧
      get_numeric_value v (.int 0) r = .ok m' := by
  unfold get_answer_minimum at h h'
  cases hg : get_numeric_value v (.int 0) r with
  | error e => rw [hg] at h; simp [Bind.bind, Except.bind] at h
  | ok mv =>
    rw [hg] at h h'
    simp only [Bind.bind, Except.bind, if_true, if_neg (by simp : ¬ (false = true)),
      Except.ok.injEq] at h h'
    subst h'
    cases mv with
    | none => simp at h
    | some v0 =>
      cases v0 with
      | int n =>
        simp only [svAddQ, Except.map, Except.ok.injEq] at h
        exact ⟨n, rfl, h.symm, rfl⟩
      | float q =>
        simp only [svAddQ, Except.map, Except.ok.injEq] at h
        exact ⟨q, rfl, h.symm, rfl⟩
      | str s => simp [svAddQ, Except.map] at h
      | dict s1 i1 => simp [svAddQ, Except.map] at h

theorem get_answer_maximum_exclusive_pair (v : SchemaValue) (d : ℤ) (r : RangeTable)
    (m m' : Option SchemaValue)
    (h : get_answer_maximum v d true r = .ok m)
    (h' : get_answer_maximum v d false r = .ok m') :
    ∃ q, m'.bind SchemaValue.asQ = some q ∧ m = some (.float (q - 1 / (10 : ℚ) ^ d)) ∧
      get_numeric_value v (.int MAX_NUMBER) r = .ok m' := by
  unfold get_answer_maximum at h h'
  cases hg : get_numeric_value v (.int MAX_NUMBER) r with
  | error e => rw [hg] at h; simp [Bind.bind, Except.bind] at h
  | ok mv =>
    rw [hg] at h h'
    simp only [Bind.bind, Except.bind, if_true, if_neg (by simp : ¬ (false = true)),
      Except.ok.injEq] at h h'
    subst h'
    cases mv with
    | none => simp at h
    | some v0 =>
      cases v0 with
      | int n =>
        simp only [svAddQ, Except.map, Except.ok.injEq] at h
        refine ⟨n, rfl, ?_, rfl⟩
        rw [← h]
        norm_num [sub_eq_add_neg]
      | float q =>
        simp only [svAddQ, Except.map, Except.ok.injEq] at h
        refine ⟨q, rfl, ?_, rfl⟩
        rw [← h]
        norm_num [sub_eq_add_neg]
      | str s => simp [svAddQ, Except.map] at h
      | dict s1 i1 => simp [svAddQ, Except.map] at h

/-- C7: with `exclusive` set, the produced entry's min is the non-exclusive
resolved minimum plus `1 / 10 ^ decimal_places` and its max is the
non-exclusive resolved maximum minus `1 / 10 ^ decimal_places`; without
`exclusive` the bounds are the underlying resolved values unchanged. -/
theorem c7_exclusive_adjusts_bounds (a : Answer) (r : RangeTable) (e e' : RangeEntry)
    (hex : a.exclusive = true)
    (h : get_numeric_range_values a r = .ok e)
    (h' : get_numeric_range_values { a with exclusive := false } r = .ok e') :
    (∃ q, e'.min.bind SchemaValue.asQ = some q ∧
        e.min = some (.float (q + 1 / (10 : ℚ) ^ (a.decimal_places.getD 0)))) ∧
    (∃ q, e'.max.bind SchemaValue.asQ = some q ∧
        e.max = some (.float (q - 1 / (10 : ℚ) ^ (a.decimal_places.getD 0)))) ∧
    get_numeric_value (effectiveValue a.minimum) (.int 0) r = .ok e'.min ∧
    get_numeric_value (effectiveValue a.maximum) (.int MAX_NUMBER) r = .ok e'.max := by
  obtain ⟨hm, hx, -⟩ := get_numeric_range_values_eq a r e h
  obtain ⟨hm', hx', -⟩ := get_numeric_range_values_eq _ r e' h'
  rw [hex] at hm hx
  dsimp only at hm' hx'
  obtain ⟨q1, hq1, hq2, hq3⟩ := get_answer_minimum_exclusive_pair _ _ _ _ _ hm hm'
  obtain ⟨q2, hp1, hp2, hp3⟩ := get_answer_maximum_exclusive_pair _ _ _ _ _ hx hx'
  exact ⟨⟨q1, hq1, hq2⟩, ⟨q2, hp1, hp2⟩, hq3, hp3⟩

/-- C7 witness: `aC7` (bounds 1 and 10, one decimal place) with and without
`exclusive` produces `e7` and `e7x`: min 1.1, max 9.9 versus 1 and 10. -/
theorem c7_exclusive_adjusts_bounds_witness :
    (∃ q, e7x.min.bind SchemaValue.asQ = some q ∧
        e7.min = some (.float (q + 1 / (10 : ℚ) ^ (aC7.decimal_places.getD 0)))) ∧
    (∃ q, e7x.max.bind SchemaValue.asQ = some q ∧
        e7.max = some (.float (q - 1 / (10 : ℚ) ^ (aC7.decimal_places.getD 0)))) ∧
    get_numeric_value (effectiveValue aC7.minimum) (.int 0) [] = .ok e7x.min ∧
    get_numeric_value (effectiveValue aC7.maximum) (.int MAX_NUMBER) [] = .ok e7x.max := by
  apply c7_exclusive_adjusts_bounds aC7 [] e7 e7x rfl
  · simp only [get_numeric_range_values, get_answer_minimum, get_answer_maximum,
      get_numeric_value, effectiveValue, aC7, e7, svAddQ, Bind.bind, Except.bind, lookupRange,
      Option.getD]
    norm_num [Except.map]
  · simp only [get_numeric_range_values, get_answer_minimum, get_answer_maximum,
      get_numeric_value, effectiveValue, aC7, e7x, svAddQ, Bind.bind, Except.bind, lookupRange,
      Option.getD]
    norm_num [Except.map]

/-- C2: when the answer's own range-table entry carries a sentinel min
(resp. a non-sentinel min and sentinel max), `validate_numeric_answer_types`
adds exactly the one dangling-reference error naming the referenced
identifier, with no invalid-range and no precision error; with neither
bound a sentinel it proceeds to exactly the range and precision checks. -/
theorem c2_dangling_reference_short_circuits (a : Answer) (r : RangeTable) (entry : RangeEntry)
    (hlk : lookupRange r a.id = some entry) :
    (∀ src X mm, entry.min = none → a.minimum = some mm →
        mm.value = some (.dict src (some X)) →
        validate_numeric_answer_types a r = .ok [mkError (referencedMinMsg X a.id) a.id []]) ∧
    (∀ src X mx, entry.min ≠ none → entry.max = none → a.maximum = some mx →
        mx.value = some (.dict src (some X)) →
        validate_numeric_answer_types a r = .ok [mkError (referencedMaxMsg X a.id) a.id []]) ∧
    (entry.min ≠ none → entry.max ≠ none →
        validate_numeric_answer_types a r = (do
          let e2 ← validate_numeric_range a r
          let e3 ← validate_referred_numeric_answer_decimals a r
          Except.ok (e2 ++ e3))) := by
  refine ⟨?_, ?_, ?_⟩
  · rintro src X mm hmin hamm hval
    simp only [validate_numeric_answer_types, validate_referred_numeric_answer, hlk, hmin,
      subscriptIdentifier, hamm, hval, Bind.bind, Except.bind, if_pos rfl, if_true]
  · rintro src X mx hmin hmax hamx hval
    simp only [validate_numeric_answer_types, validate_referred_numeric_answer, hlk, hmax,
      subscriptIdentifier, hamx, hval, Bind.bind, Except.bind, if_neg hmin, if_pos rfl, if_true]
  · rintro hmin hmax
    simp only [validate_numeric_answer_types, validate_referred_numeric_answer, hlk,
      Bind.bind, Except.bind, if_neg hmin, if_neg hmax]
    simp

/-- C2 witness: `aC1`'s entry in `rC2` has a sentinel min, so the checks
report exactly the dangling-minimum error naming `x`. -/
theorem c2_dangling_reference_short_circuits_witness :
    validate_numeric_answer_types aC1 rC2 = .ok [mkError (referencedMinMsg "x" aC1.id) aC1.id []] :=
  (c2_dangling_reference_short_circuits aC1 rC2 eC1 rfl).1 (some ("answers")) "x"
    ⟨some (.dict (some ("answers")) (some ("x"))), none⟩ rfl rfl rfl

theorem list_name_errors_messages (aid : String) (lns : Option (List String))
    (params : ActionParams) (es : List ErrorRec)
    (h : list_name_errors aid lns params = .ok es) :
    ∀ err ∈ es, err.message = LIST_NAME_MISSING := by
  unfold list_name_errors at h
  cases hpl : params.list_name with
  | none =>
    rw [hpl] at h
    simp only [Except.ok.injEq] at h
    subst h
    simp
  | some ln =>
    rw [hpl] at h
    dsimp only at h
    by_cases hln : ln ≠ ""
    · rw [if_pos hln] at h
      cases lns with
      | none => simp at h
      | some names =>
        simp only [Except.ok.injEq] at h
        subst h
        intro err herr
        by_cases hmem : ln ∉ names
        · rw [if_pos hmem] at herr
          simp only [List.mem_singleton] at herr
          subst herr
          rfl
        · rw [if_neg hmem] at herr
          simp at herr
    · rw [if_neg hln] at h
      simp only [Except.ok.injEq] at h
      subst h
      simp

theorem block_id_errors_messages (aid : String) (bis : Option (List String))
    (params : ActionParams) (es : List ErrorRec)
    (h : block_id_errors aid bis params = .ok es) :
    ∀ err ∈ es, err.message = BLOCK_ID_MISSING := by
  unfold block_id_errors at h
  cases hpl : params.block_id with
  | none =>
    rw [hpl] at h
    simp only [Except.ok.injEq] at h
    subst h
    simp
  | some bid =>
    rw [hpl] at h
    dsimp only at h
    by_cases hbid : bid ≠ ""
    · rw [if_pos hbid] at h
      cases bis with
      | none => simp at h
      | some ids =>
        simp only [Except.ok.injEq] at h
        subst h
        intro err herr
        by_cases hmem : bid ∉ ids
        · rw [if_pos hmem] at herr
          simp only [List.mem_singleton] at herr
          subst herr
          rfl
        · rw [if_neg hmem] at herr
          simp at herr
    · rw [if_neg hbid] at h
      simp only [Except.ok.injEq] at h
      subst h
      simp

theorem validate_answer_actions_option_messages (aid : String) (lns bis : Option (List String))
    (o : AnswerOption) (es : List ErrorRec)
    (h : validate_answer_actions_option aid lns bis o = .ok es) :
    ∀ err ∈ es, err.message = LIST_NAME_MISSING ∨ err.message = BLOCK_ID_MISSING := by
  unfold validate_answer_actions_option at h
  cases hap : o.action_params with
  | none =>
    rw [hap] at h
    simp only [Except.ok.injEq] at h
    subst h
    simp
  | some params =>
    rw [hap] at h
    simp only [Bind.bind, Except.bind] at h
    cases h1 : list_name_errors aid lns params with
    | error e => rw [h1] at h; simp at h
    | ok es1 =>
      rw [h1] at h
      cases h2 : block_id_errors aid bis params with
      | error e => rw [h2] at h; simp at h
      | ok es2 =>
        rw [h2] at h
        simp only [Except.ok.injEq] at h
        subst h
        intro err herr
        rcases List.mem_append.mp herr with hm | hm
        · exact Or.inl (list_name_errors_messages aid lns params es1 h1 err hm)
        · exact Or.inr (block_id_errors_messages aid bis params es2 h2 err hm)

theorem validate_answer_actions_list_messages (aid : String) (lns bis : Option (List String))
    (opts : List AnswerOption) (es : List ErrorRec)
    (h : validate_answer_actions_list aid lns bis opts = .ok es) :
    ∀ err ∈ es, err.message = LIST_NAME_MISSING ∨ err.message = BLOCK_ID_MISSING := by
  induction opts generalizing es with
  | nil =>
    simp only [validate_answer_actions_list, Except.ok.injEq] at h
    subst h
    simp
  | cons o rest ih =>
    simp only [validate_answer_actions_list, Bind.bind, Except.bind] at h
    cases ho : validate_answer_actions_option aid lns bis o with
    | error e => rw [ho] at h; simp at h
    | ok e1 =>
      rw [ho] at h
      cases hr : validate_answer_actions_list aid lns bis rest with
      | error e => rw [hr] at h; simp at h
      | ok e2 =>
        rw [hr] at h
        simp only [Except.ok.injEq] at h
        subst h
        intro err herr
        rcases List.mem_append.mp herr with hm | hm
        · exact validate_answer_actions_option_messages aid lns bis o e1 ho err hm
        · exact ih e2 hr err hm

/-- C8: for a Date answer whose minimum and maximum are both present with
literal string values, `is_offset_date_valid` compares the two offset
dates strictly, and `validate` accumulates the `INVALID_OFFSET_DATE` error
exactly when the resolved minimum is not strictly before the resolved
maximum (equal resolved dates produce the error). -/
theorem c8_offset_date_error_iff (now : Date) (a : Answer) (blk : Option Block)
    (lns bis : Option (List String)) (mn mx : MinMaxSpec) (smin smax : String)
    (dmin dmax : Date) (errs : List ErrorRec)
    (htype : a.type = "Date")
    (hmn : a.minimum = some mn) (hmx : a.maximum = some mx)
    (hvn : mn.value = some (.str smin)) (hvx : mx.value = some (.str smax))
    (hdn : get_offset_date now mn = .ok dmin) (hdx : get_offset_date now mx = .ok dmax)
    (hv : validate now a blk lns bis = .ok errs) :
    is_offset_date_valid now a = .ok (dateLt dmin dmax) ∧
    (mkError INVALID_OFFSET_DATE a.id [] ∈ errs ↔ dateLt dmin dmax = false) := by
  have hod : is_offset_date_valid now a = .ok (dateLt dmin dmax) := by
    rw [is_offset_date_valid, if_pos htype, hmn, hmx]
    dsimp only
    rw [hvn, hvx]
    dsimp only
    rw [if_pos (by simp [isDictSV])]
    simp only [Bind.bind, Except.bind, hdn, hdx]
  refine ⟨hod, ?_⟩
  unfold validate at hv
  simp only [Bind.bind, Except.bind] at hv
  cases ha : validate_answer_actions a lns bis with
  | error e => rw [ha] at hv; simp at hv
  | ok e1 =>
    rw [ha] at hv
    dsimp only at hv
    cases hl : validate_labels_and_values_match a with
    | error e => rw [hl] at hv; simp at hv
    | ok lv =>
      rw [hl] at hv
      dsimp only at hv
      cases hr : validate_routing_on_answer_options a blk with
      | error e => rw [hr] at hv; simp at hv
      | ok rv =>
        rw [hr] at hv
        dsimp only at hv
        rw [hod] at hv
        dsimp only at hv
        rw [if_neg (by rw [htype]; simp :
          ¬ (a.type = "TextField" ∧ a.suggestions_url.isSome))] at hv
        rw [if_neg (by rw [htype]; simp :
          ¬ (a.type = "Number" ∨ a.type = "Currency" ∨ a.type = "Percentage"))] at hv
        simp only [pure, Except.pure, Except.ok.injEq] at hv
        subst hv
        simp only [List.mem_append, List.append_nil]
        constructor
        · rintro ((hin | hin) | hin)
          · rcases validate_answer_actions_list_messages a.id lns bis (optionsOf a) e1 ha _ hin
              with hmsg | hmsg
            · exact absurd (show INVALID_OFFSET_DATE = LIST_NAME_MISSING from hmsg) (by decide)
            · exact absurd (show INVALID_OFFSET_DATE = BLOCK_ID_MISSING from hmsg) (by decide)
          · by_cases hdp : are_decimal_places_valid a = true
            · simp [hdp] at hin
            · simp only [hdp, Bool.false_eq_true, not_false_eq_true, if_true] at hin
              simp only [List.mem_singleton] at hin
              have hmm : INVALID_OFFSET_DATE = DECIMAL_PLACES_UNDEFINED :=
                congrArg ErrorRec.message hin
              exact absurd hmm (by decide)
          · by_cases hdl : dateLt dmin dmax = true
            · simp [hdl] at hin
            · simp at hdl
              exact hdl
        · intro hdl
          right
          simp [hdl]

/-- C8 witness: the spec's boundary example `a8` — minimum `2020-01` offset
by one month equals maximum `2020-02` — fails strict-less-than, and
`validate` reports exactly the `INVALID_OFFSET_DATE` error. -/
theorem c8_offset_date_error_iff_witness :
    is_offset_date_valid now0 a8 = .ok (dateLt ⟨2020, 2, 1⟩ ⟨2020, 2, 1⟩) ∧
    (mkError INVALID_OFFSET_DATE a8.id [] ∈ [mkError INVALID_OFFSET_DATE "a8" []] ↔
      dateLt ⟨2020, 2, 1⟩ ⟨2020, 2, 1⟩ = false) :=
  c8_offset_date_error_iff now0 a8 none none none mn8 mx8 "2020-01" "2020-02"
    ⟨2020, 2, 1⟩ ⟨2020, 2, 1⟩ [mkError INVALID_OFFSET_DATE "a8" []]
    rfl rfl rfl rfl rfl rfl rfl rfl

/-- C10 (amended): `get_key_index_from_path` reads exactly one character
after the bracket following the key, whatever follows it, so a `sections`
index of 10 or more resolves the context with only its first digit: on
`c10doc`, the path into section 12 yields section id `s1` (index 1) while
its block and group ids still resolve inside section 12.  (For a
`groups`/`blocks` index of 10 or more, context resolution raises instead —
see the counterexample.) -/
theorem c10_amended_first_digit :
    (∀ (d1 d2 : Char) (rest : List Char), d1.isDigit = true →
        get_key_index_from_path ("sections")
          (String.mk (("sections.[").toList ++ d1 :: d2 :: rest)) = .ok (d1.toNat - 48)) ∧
    get_key_index_from_path ("sections") c10path = .ok 1 ∧
    get_context_from_path c10doc c10path = .ok ⟨.str "s1", some (.str "b12"), some (.str "g12")⟩ := by
  refine ⟨?_, rfl, rfl⟩
  intro d1 d2 rest h
  unfold get_key_index_from_path
  dsimp only
  have hfind : pyFind (String.mk (("sections.[").toList ++ d1 :: d2 :: rest)) ("sections") = 0 :=
    rfl
  have hlen : ((("sections") ++ (".[")).length : ℤ) = 10 := rfl
  rw [hfind, hlen]
  have hn : ((String.mk (("sections.[").toList ++ d1 :: d2 :: rest)).length : ℤ)
      = 12 + (rest.length : ℤ) := by
    show ((("sections.[").toList ++ d1 :: d2 :: rest).length : ℤ) = 12 + (rest.length : ℤ)
    simp [List.length_append]
    omega
  have hslice : pySlice (String.mk (("sections.[").toList ++ d1 :: d2 :: rest))
      (0 + 10) (0 + 10 + 1) = String.mk [d1] := by
    unfold pySlice
    rw [hn]
    norm_num
    rw [min_eq_left (by omega : (10 : ℤ) ≤ 12 + (rest.length : ℤ)),
        min_eq_left (by omega : (11 : ℤ) ≤ 12 + (rest.length : ℤ))]
    norm_num
    rfl
  rw [hslice]
  unfold pyIntOfString
  rw [if_pos (by simp [allDigits, h] : allDigits (String.mk [d1]) = true)]
  simp [digitsToNat]

/-- C10 witness: the digit pair `1`, `2` followed by `]`: only the `1` is
read. -/
theorem c10_amended_first_digit_witness :
    get_key_index_from_path ("sections")
        (String.mk (("sections.[").toList ++ '1' :: '2' :: ("]").toList)) =
      .ok ('1'.toNat - 48) :=
  c10_amended_first_digit.1 '1' '2' ("]").toList rfl
